import Mathlib

/-
Verification of the credit-verification form page, the speech-input adapter
and the document drop zone, embedded shallowly from the TypeScript source.
-/

namespace CreditVoiceHub

/-- Names of the thirteen form fields, from the FormData interface of the
form page component. -/
inductive Field where
  | fullName
  | aadharNumber
  | panNumber
  | dateOfBirth
  | annualIncome
  | employmentStatus
  | monthlyDebtPayments
  | mobileNumber
  | emailAddress
  | streetAddress
  | city
  | state
  | pinCode
deriving DecidableEq, Repr

/-- The thirteen string fields owned by the form page (FormData). -/
structure FormData where
  fullName : String
  aadharNumber : String
  panNumber : String
  dateOfBirth : String
  annualIncome : String
  employmentStatus : String
  monthlyDebtPayments : String
  mobileNumber : String
  emailAddress : String
  streetAddress : String
  city : String
  state : String
  pinCode : String
deriving DecidableEq, Repr

/-- An uploaded file: opaque content, a name and a byte size. -/
structure FileData where
  name : String
  size : Nat
deriving DecidableEq, Repr

/-- Names of the four document slots, from the FileUploads interface. -/
inductive FileSlot where
  | aadharCard
  | panCard
  | salarySlips
  | bankStatement
deriving DecidableEq, Repr

/-- The four document slots owned by the form page (FileUploads). -/
structure FileUploads where
  aadharCard : Option FileData
  panCard : Option FileData
  salarySlips : Option FileData
  bankStatement : Option FileData
deriving DecidableEq, Repr

/-- Toast messages the page and drop zone can show. -/
inductive Toast where
  | fileUploaded (name : String) (slot : FileSlot)
  | missingFields
  | missingDocs
  | submitSuccess
  | submitFailure
deriving DecidableEq, Repr

/-- Read one named field of the form state. -/
def getField (fd : FormData) : Field → String
  | .fullName => fd.fullName
  | .aadharNumber => fd.aadharNumber
  | .panNumber => fd.panNumber
  | .dateOfBirth => fd.dateOfBirth
  | .annualIncome => fd.annualIncome
  | .employmentStatus => fd.employmentStatus
  | .monthlyDebtPayments => fd.monthlyDebtPayments
  | .mobileNumber => fd.mobileNumber
  | .emailAddress => fd.emailAddress
  | .streetAddress => fd.streetAddress
  | .city => fd.city
  | .state => fd.state
  | .pinCode => fd.pinCode

/-- Replace one named field, keeping the others: the spread update
performed by handleInputChange. -/
def setField (fd : FormData) : Field → String → FormData
  | .fullName, v => { fd with fullName := v }
  | .aadharNumber, v => { fd with aadharNumber := v }
  | .panNumber, v => { fd with panNumber := v }
  | .dateOfBirth, v => { fd with dateOfBirth := v }
  | .annualIncome, v => { fd with annualIncome := v }
  | .employmentStatus, v => { fd with employmentStatus := v }
  | .monthlyDebtPayments, v => { fd with monthlyDebtPayments := v }
  | .mobileNumber, v => { fd with mobileNumber := v }
  | .emailAddress, v => { fd with emailAddress := v }
  | .streetAddress, v => { fd with streetAddress := v }
  | .city, v => { fd with city := v }
  | .state, v => { fd with state := v }
  | .pinCode, v => { fd with pinCode := v }

/-- handleInputChange: setting any named field replaces its value verbatim. -/
def handleInputChange (fd : FormData) (f : Field) (v : String) : FormData :=
  setField fd f v

/-- Read one named document slot. -/
def getSlot (fu : FileUploads) : FileSlot → Option FileData
  | .aadharCard => fu.aadharCard
  | .panCard => fu.panCard
  | .salarySlips => fu.salarySlips
  | .bankStatement => fu.bankStatement

/-- Replace one named document slot, keeping the others. -/
def setSlot (fu : FileUploads) : FileSlot → Option FileData → FileUploads
  | .aadharCard, v => { fu with aadharCard := v }
  | .panCard, v => { fu with panCard := v }
  | .salarySlips, v => { fu with salarySlips := v }
  | .bankStatement, v => { fu with bankStatement := v }

/-- handleFileUpload: stores the selected file in its slot and shows an
upload toast. -/
def handleFileUpload (fu : FileUploads) (slot : FileSlot) (f : FileData) :
    FileUploads × Toast :=
  (setSlot fu slot (some f), Toast.fileUploaded f.name slot)

/-- The initial (and reset) form state: every field is the empty string. -/
def emptyForm : FormData :=
  { fullName := "", aadharNumber := "", panNumber := "", dateOfBirth := ""
  , annualIncome := "", employmentStatus := "", monthlyDebtPayments := ""
  , mobileNumber := "", emailAddress := "", streetAddress := "", city := ""
  , state := "", pinCode := "" }

/-- The initial (and reset) file state: every slot is empty. -/
def emptyFiles : FileUploads :=
  { aadharCard := none, panCard := none, salarySlips := none
  , bankStatement := none }

/-- The requiredFields array of validateForm, in source order. -/
def requiredFields : List Field :=
  [.fullName, .aadharNumber, .panNumber, .dateOfBirth, .annualIncome,
   .employmentStatus, .monthlyDebtPayments, .mobileNumber, .emailAddress,
   .streetAddress, .city, .state, .pinCode]

/-- The requiredFiles array of validateForm, in source order. -/
def requiredFiles : List FileSlot :=
  [.aadharCard, .panCard, .salarySlips, .bankStatement]

/-- Fields whose value is falsy, i.e. the empty string: the missingFields
filter of validateForm. -/
def missingFieldsOf (fd : FormData) : List Field :=
  requiredFields.filter (fun f => getField fd f == "")

/-- Slots holding no file: the missingFiles filter of validateForm. -/
def missingFilesOf (fu : FileUploads) : List FileSlot :=
  requiredFiles.filter (fun s => (getSlot fu s).isNone)

/-- validateForm: presence validation, returning the boolean result together
with the toasts it shows. Checks fields first, documents second, each with
an early return. -/
def validateForm (fd : FormData) (fu : FileUploads) : Bool × List Toast :=
  if (missingFieldsOf fd).length > 0 then
    (false, [Toast.missingFields])
  else if (missingFilesOf fu).length > 0 then
    (false, [Toast.missingDocs])
  else
    (true, [])

/-- Observable outcome of one handleSubmit invocation. -/
structure SubmitTrace where
  finalForm : FormData
  finalFiles : FileUploads
  apiCalls : Nat
  toasts : List Toast
  enteredSubmitting : Bool
  isSubmittingFinal : Bool
deriving DecidableEq, Repr

/-- handleSubmit: aborts when validateForm fails, otherwise sets
isSubmitting, awaits the simulated API call once, and either resets all
state with a success toast or (when the awaited path throws) keeps the
state with a failure toast; the finally block clears isSubmitting on every
path. The apiThrows flag selects whether the awaited path throws. -/
def handleSubmit (fd : FormData) (fu : FileUploads) (apiThrows : Bool) :
    SubmitTrace :=
  let v := validateForm fd fu
  if v.fst then
    if apiThrows then
      { finalForm := fd, finalFiles := fu, apiCalls := 1
      , toasts := v.snd ++ [Toast.submitFailure]
      , enteredSubmitting := true, isSubmittingFinal := false }
    else
      { finalForm := emptyForm, finalFiles := emptyFiles, apiCalls := 1
      , toasts := v.snd ++ [Toast.submitSuccess]
      , enteredSubmitting := true, isSubmittingFinal := false }
  else
    { finalForm := fd, finalFiles := fu, apiCalls := 0
    , toasts := v.snd
    , enteredSubmitting := false, isSubmittingFinal := false }

/-- Removal of every character that is not a decimal digit: the
replace(/\D/g, ...) step applied on several dictation paths. -/
def stripNonDigits (s : String) : String :=
  String.mk (s.data.filter (fun c => c.isDigit))

/-- Characterwise uppercasing of a string: the toUpperCase() calls of the
PAN-number handlers. -/
def toUpperString (s : String) : String :=
  String.mk (s.data.map Char.toUpper)

/-- Per-field transform of the typed-input path: the onChange handler each
Input (or Select) passes to handleInputChange. Only the PAN number input
uppercases; every other handler forwards the event value verbatim. -/
def typedTransform : Field → String → String
  | .fullName, v => v
  | .aadharNumber, v => v
  | .panNumber, v => toUpperString v
  | .dateOfBirth, v => v
  | .annualIncome, v => v
  | .employmentStatus, v => v
  | .monthlyDebtPayments, v => v
  | .mobileNumber, v => v
  | .emailAddress, v => v
  | .streetAddress, v => v
  | .city, v => v
  | .state, v => v
  | .pinCode, v => v

/-- Per-field transform of the dictation path: the onResult wrapper each
field passes to its SpeechRecognition adapter. The employment-status field
is a Select with no adapter, hence none. -/
def dictationTransform : Field → Option (String → String)
  | .fullName => some (fun v => v)
  | .aadharNumber => some stripNonDigits
  | .panNumber => some toUpperString
  | .dateOfBirth => some (fun v => v)
  | .annualIncome => some stripNonDigits
  | .employmentStatus => none
  | .monthlyDebtPayments => some stripNonDigits
  | .mobileNumber => some stripNonDigits
  | .emailAddress => some (fun v => v)
  | .streetAddress => some (fun v => v)
  | .city => some (fun v => v)
  | .state => some (fun v => v)
  | .pinCode => some stripNonDigits

/-- Setting a field through its typed-input path: the Input onChange handler
applies its transform and calls handleInputChange. -/
def typedInput (fd : FormData) (f : Field) (v : String) : FormData :=
  handleInputChange fd f (typedTransform f v)

/-- Fields whose typed-input onChange handler uppercases the event value. -/
def upperTypedFields : List Field := [.panNumber]

/-- Fields whose dictation onResult wrapper strips non-digit characters. -/
def dictationStripFields : List Field :=
  [.aadharNumber, .annualIncome, .monthlyDebtPayments, .mobileNumber,
   .pinCode]

/-- handleSpeechResult: stores the (already transformed) transcript through
handleInputChange and clears the active dictation target. -/
def handleSpeechResult (fd : FormData) (_cur : Option Field) (f : Field)
    (result : String) : FormData × Option Field :=
  (handleInputChange fd f result, none)

/-- onToggle handler the page passes to each field's SpeechRecognition
adapter: pressing field f clears the target when f is already current,
otherwise makes f the current target. -/
def toggleSpeechField (cur : Option Field) (f : Field) : Option Field :=
  if cur = some f then none else some f

/-- isActive prop the page passes to field f's adapter: the strict equality
of the currentSpeechField state with f's name. -/
def isSpeechActive (cur : Option Field) (f : Field) : Bool :=
  cur == some f

/-- Observable state of one SpeechRecognition adapter instance together
with its underlying recognition session. The capturedIsListening component
records the value of the isListening binding that the setup effect's
closures (onstart's setTimeout callback included) closed over when the
handlers were installed; a later setIsListening updates the isListening
state of subsequent renders but never that captured binding. -/
structure AdapterState where
  isListening : Bool
  capturedIsListening : Bool
  timerArmed : Bool
  sessionListening : Bool
  stopRequests : Nat
  resultsDelivered : List String
deriving DecidableEq, Repr

/-- Adapter state at mount: both React state flags start false, no session
is capturing, no timer is armed, nothing delivered. -/
def initAdapter : AdapterState :=
  { isListening := false, capturedIsListening := false, timerArmed := false
  , sessionListening := false, stopRequests := 0, resultsDelivered := [] }

/-- Run of the setup effect: the recognition handlers are (re)installed and
their closures capture the isListening value of the render that ran the
effect. -/
def runSetupEffect (s : AdapterState) : AdapterState :=
  { s with capturedIsListening := s.isListening }

/-- onstart handler: the session begins capturing, setIsListening(true) is
called, and the 10-second watchdog timeout is armed. -/
def fireOnStart (s : AdapterState) : AdapterState :=
  { s with isListening := true, sessionListening := true, timerArmed := true }

/-- Expiry of the 10-second watchdog: the timeout callback checks that the
recognition ref is set and that its captured isListening binding is true,
and only then calls the session's stop. -/
def fireWatchdog (s : AdapterState) : AdapterState :=
  if s.timerArmed then
    if s.capturedIsListening then
      { s with timerArmed := false, stopRequests := s.stopRequests + 1 }
    else
      { s with timerArmed := false }
  else s

/-- onresult handler: delivers the first alternative's transcript through
onResult and calls setIsListening(false). -/
def fireOnResult (s : AdapterState) (transcript : String) : AdapterState :=
  { s with
    isListening := false,
    resultsDelivered := s.resultsDelivered ++ [transcript] }

/-- onend handler: setIsListening(false) and the pending timeout, if any,
is cleared. -/
def fireOnEnd (s : AdapterState) : AdapterState :=
  { s with
    isListening := false,
    sessionListening := false,
    timerArmed := false }

/-- Local state of one DocumentDropZone: the hidden file input's value
string and the drag-over flag. The held file itself lives in the parent. -/
structure DropZoneState where
  inputValue : String
  isDragOver : Bool
deriving DecidableEq, Repr

/-- handleDrop: clears the drag-over flag and, when at least one file was
dropped, forwards exactly the first file to onFileSelect; the returned list
is the sequence of onFileSelect invocations. -/
def handleDrop (s : DropZoneState) (dropped : List FileData) :
    DropZoneState × List FileData :=
  match dropped with
  | [] => ({ s with isDragOver := false }, [])
  | f :: _ => ({ s with isDragOver := false }, [f])

/-- handleRemoveFile: clears the hidden input's value and invokes no
callback at all; the returned list is the (empty) sequence of onFileSelect
invocations. -/
def handleRemoveFile (s : DropZoneState) : DropZoneState × List FileData :=
  ({ s with inputValue := "" }, [])

/-- Application of a sequence of onFileSelect invocations to the parent's
file state through handleFileUpload for a fixed slot. -/
def applySelections (fu : FileUploads) (slot : FileSlot)
    (evs : List FileData) : FileUploads :=
  evs.foldl (fun acc f => (handleFileUpload acc slot f).fst) fu

/-- Unit names used by formatFileSize, in source order. -/
def sizes : List String := ["Bytes", "KB", "MB", "GB"]

/-- Rounding of bytes/den to two decimals, returned as hundredths: the
toFixed(2) step, which picks the nearest multiple of 0.01 and the larger
one on ties. -/
def round2 (bytes den : Nat) : Nat :=
  (bytes * 200 + den) / (2 * den)

/-- Rendering of a hundredths value with trailing fractional zeros removed:
the parseFloat step applied to the toFixed(2) string. -/
def decimalTrim (n : Nat) : String :=
  let intPart := n / 100
  let frac := n % 100
  if frac = 0 then toString intPart
  else if frac % 10 = 0 then toString intPart ++ "." ++ toString (frac / 10)
  else if frac < 10 then toString intPart ++ ".0" ++ toString frac
  else toString intPart ++ "." ++ toString frac

/-- Unit chosen for a positive byte count: sizes indexed by the floor of
the base-1024 logarithm, undefined past the end as in the source. -/
def sizeUnit (bytes : Nat) : String :=
  (sizes.getD (Nat.log 1024 bytes) "undefined")

/-- formatFileSize: human-readable byte count with binary prefixes and
two-decimal rounding. The JS floating-point Math.log quotient, toFixed and
parseFloat are modelled by the exact integer computations above. -/
def formatFileSize (bytes : Nat) : String :=
  if bytes = 0 then "0 Bytes"
  else
    decimalTrim (round2 bytes (1024 ^ Nat.log 1024 bytes)) ++ " " ++
      sizeUnit bytes

/-- Concrete filled form used to instantiate universally quantified
results. -/
def fullForm : FormData :=
  { fullName := "Asha Rao", aadharNumber := "123412341234"
  , panNumber := "ABCDE1234F", dateOfBirth := "1990-01-15"
  , annualIncome := "900000", employmentStatus := "self-employed"
  , monthlyDebtPayments := "12000", mobileNumber := "9876543210"
  , emailAddress := "asha@example.com", streetAddress := "12 MG Road"
  , city := "Pune", state := "Maharashtra", pinCode := "411001" }

/-- Concrete sample file. -/
def sampleFile : FileData := { name := "aadhar.pdf", size := 1536 }

/-- Concrete file state holding a file in every slot. -/
def fullFiles : FileUploads :=
  { aadharCard := some sampleFile, panCard := some sampleFile
  , salarySlips := some sampleFile, bankStatement := some sampleFile }

lemma getField_setField (fd : FormData) (f : Field) (v : String) :
    getField (setField fd f v) f = v := by
  cases f <;> rfl

lemma exists_missing_field_iff (fd : FormData) :
    0 < (missingFieldsOf fd).length ↔
      ∃ f ∈ requiredFields, getField fd f = "" := by
  rw [missingFieldsOf, List.length_pos_iff_exists_mem]
  constructor
  · rintro ⟨a, ha⟩
    rw [List.mem_filter] at ha
    exact ⟨a, ha.1, by simpa using ha.2⟩
  · rintro ⟨a, ha, hp⟩
    exact ⟨a, List.mem_filter.mpr ⟨ha, by simpa using hp⟩⟩

lemma exists_missing_file_iff (fu : FileUploads) :
    0 < (missingFilesOf fu).length ↔
      ∃ s ∈ requiredFiles, getSlot fu s = none := by
  rw [missingFilesOf, List.length_pos_iff_exists_mem]
  constructor
  · rintro ⟨a, ha⟩
    rw [List.mem_filter] at ha
    exact ⟨a, ha.1, by simpa using ha.2⟩
  · rintro ⟨a, ha, hp⟩
    exact ⟨a, List.mem_filter.mpr ⟨ha, by simpa using hp⟩⟩

lemma validateForm_eq_fields (fd : FormData) (fu : FileUploads)
    (h : 0 < (missingFieldsOf fd).length) :
    validateForm fd fu = (false, [Toast.missingFields]) := by
  simp [validateForm, h]

lemma validateForm_eq_docs (fd : FormData) (fu : FileUploads)
    (h1 : ¬ 0 < (missingFieldsOf fd).length)
    (h2 : 0 < (missingFilesOf fu).length) :
    validateForm fd fu = (false, [Toast.missingDocs]) := by
  simp [validateForm, h1, h2]

lemma validateForm_eq_ok (fd : FormData) (fu : FileUploads)
    (h1 : ¬ 0 < (missingFieldsOf fd).length)
    (h2 : ¬ 0 < (missingFilesOf fu).length) :
    validateForm fd fu = (true, []) := by
  simp [validateForm, h1, h2]

/-- C1: whenever at least one of the thirteen named fields is the empty
string or at least one of the four file slots is empty, pressing submit is
blocked: validateForm returns false, the simulated network call is never
invoked, the form and file state are untouched, the submission machine
never enters Submitting, and the toast shown is the one for the failing
category (missing fields when some field is empty, otherwise missing
documents). -/
theorem validate_blocks_submission (fd : FormData) (fu : FileUploads)
    (h : (∃ f ∈ requiredFields, getField fd f = "") ∨
         (∃ s ∈ requiredFiles, getSlot fu s = none)) :
    (validateForm fd fu).fst = false ∧
    (∀ apiThrows : Bool,
        (handleSubmit fd fu apiThrows).apiCalls = 0 ∧
        (handleSubmit fd fu apiThrows).enteredSubmitting = false ∧
        (handleSubmit fd fu apiThrows).finalForm = fd ∧
        (handleSubmit fd fu apiThrows).finalFiles = fu) ∧
    ((∃ f ∈ requiredFields, getField fd f = "") →
        (validateForm fd fu).snd = [Toast.missingFields]) ∧
    ((¬ ∃ f ∈ requiredFields, getField fd f = "") →
        (validateForm fd fu).snd = [Toast.missingDocs]) := by
  by_cases hf : ∃ f ∈ requiredFields, getField fd f = ""
  · have hv := validateForm_eq_fields fd fu
      ((exists_missing_field_iff fd).mpr hf)
    refine ⟨by rw [hv], ?_, fun _ => by rw [hv], fun hc => absurd hf hc⟩
    intro apiThrows
    simp [handleSubmit, hv]
  · have hs : ∃ s ∈ requiredFiles, getSlot fu s = none := h.resolve_left hf
    have h1 : ¬ 0 < (missingFieldsOf fd).length := by
      rw [exists_missing_field_iff]; exact hf
    have hv := validateForm_eq_docs fd fu h1
      ((exists_missing_file_iff fu).mpr hs)
    refine ⟨by rw [hv], ?_, fun hc => absurd hc hf, fun _ => by rw [hv]⟩
    intro apiThrows
    simp [handleSubmit, hv]

/-- Witness for C1 at the all-empty initial state. -/
theorem validate_blocks_submission_witness :
    (validateForm emptyForm emptyFiles).fst = false ∧
    (handleSubmit emptyForm emptyFiles false).apiCalls = 0 ∧
    (handleSubmit emptyForm emptyFiles false).enteredSubmitting = false ∧
    (validateForm emptyForm emptyFiles).snd = [Toast.missingFields] := by
  have h := validate_blocks_submission emptyForm emptyFiles
    (Or.inl ⟨Field.fullName, by decide, rfl⟩)
  exact ⟨h.1, (h.2.1 false).1, (h.2.1 false).2.1,
    h.2.2.1 ⟨Field.fullName, by decide, rfl⟩⟩

/-- C2: with every field non-empty and every slot holding a file, submit
invokes the simulated call exactly once; on success all field and file
state resets to the defaults with a success toast, while an exception on
this path leaves the state un-reset and shows a failure toast; on both
paths isSubmitting is true during the attempt and false again afterwards
through the finally block. -/
theorem submit_happy_path (fd : FormData) (fu : FileUploads)
    (apiThrows : Bool)
    (hf : ∀ f ∈ requiredFields, getField fd f ≠ "")
    (hd : ∀ s ∈ requiredFiles, getSlot fu s ≠ none) :
    (handleSubmit fd fu apiThrows).apiCalls = 1 ∧
    (handleSubmit fd fu apiThrows).enteredSubmitting = true ∧
    (handleSubmit fd fu apiThrows).isSubmittingFinal = false ∧
    (apiThrows = false →
        (handleSubmit fd fu apiThrows).finalForm = emptyForm ∧
        (handleSubmit fd fu apiThrows).finalFiles = emptyFiles ∧
        (handleSubmit fd fu apiThrows).toasts = [Toast.submitSuccess]) ∧
    (apiThrows = true →
        (handleSubmit fd fu apiThrows).finalForm = fd ∧
        (handleSubmit fd fu apiThrows).finalFiles = fu ∧
        (handleSubmit fd fu apiThrows).toasts = [Toast.submitFailure]) := by
  have h1 : ¬ 0 < (missingFieldsOf fd).length := by
    rw [exists_missing_field_iff]
    rintro ⟨f, hm, he⟩
    exact hf f hm he
  have h2 : ¬ 0 < (missingFilesOf fu).length := by
    rw [exists_missing_file_iff]
    rintro ⟨s, hm, he⟩
    exact hd s hm he
  have hv := validateForm_eq_ok fd fu h1 h2
  cases apiThrows <;> simp [handleSubmit, hv]

/-- Witness for C2 at a fully filled form with all four documents. -/
theorem submit_happy_path_witness :
    (handleSubmit fullForm fullFiles false).apiCalls = 1 ∧
    (handleSubmit fullForm fullFiles false).finalForm = emptyForm ∧
    (handleSubmit fullForm fullFiles false).finalFiles = emptyFiles ∧
    (handleSubmit fullForm fullFiles false).isSubmittingFinal = false := by
  have h := submit_happy_path fullForm fullFiles false
    (by decide) (by decide)
  exact ⟨h.1, (h.2.2.2.1 rfl).1, (h.2.2.2.1 rfl).2.1, h.2.2.1⟩

/-- C10: when at least one field is empty (and regardless of the document
slots, also in particular when a document slot is empty too), validateForm
returns false showing only the missing-fields toast, and its result is the
same for every document state: the field check short-circuits the document
check. -/
theorem fields_check_short_circuits (fd : FormData) (fu : FileUploads)
    (hf : ∃ f ∈ requiredFields, getField fd f = "")
    (_hd : ∃ s ∈ requiredFiles, getSlot fu s = none) :
    validateForm fd fu = (false, [Toast.missingFields]) ∧
    ∀ fu2 : FileUploads, validateForm fd fu2 = validateForm fd fu := by
  have hlen := (exists_missing_field_iff fd).mpr hf
  refine ⟨validateForm_eq_fields fd fu hlen, fun fu2 => ?_⟩
  rw [validateForm_eq_fields fd fu hlen, validateForm_eq_fields fd fu2 hlen]

/-- Witness for C10: empty form with empty slots versus full slots. -/
theorem fields_check_short_circuits_witness :
    validateForm emptyForm emptyFiles = (false, [Toast.missingFields]) ∧
    validateForm emptyForm fullFiles = validateForm emptyForm emptyFiles := by
  have h := fields_check_short_circuits emptyForm emptyFiles
    ⟨Field.city, by decide, rfl⟩ ⟨FileSlot.panCard, by decide, rfl⟩
  exact ⟨h.1, h.2 fullFiles⟩

/-- C3: evaluation of the adapter at the scenario of the claim. After the
setup effect runs at mount (isListening is false, so the installed
closures capture false), the user activates the toggle and onstart fires,
and the 10-second watchdog then expires with no result received: the
timeout callback's guard reads the stale captured isListening value, so
stop() is never requested, the session keeps capturing, the control still
shows the listening state, and no result was delivered. -/
theorem watchdog_never_stops :
    (fireWatchdog (fireOnStart (runSetupEffect initAdapter))).stopRequests = 0 ∧
    (fireWatchdog (fireOnStart (runSetupEffect initAdapter))).isListening = true ∧
    (fireWatchdog (fireOnStart (runSetupEffect initAdapter))).sessionListening = true ∧
    (fireWatchdog (fireOnStart (runSetupEffect initAdapter))).resultsDelivered = [] :=
  ⟨rfl, rfl, rfl, rfl⟩

/-- C4: the page keeps at most one active dictation target (the isActive
props of any two distinct fields are never simultaneously true), and the
microphone toggle of field a activates a when nothing is active,
deactivates a when a itself is active, and makes a the sole target,
deactivating b, when a different field b is active. -/
theorem speech_target_exclusive :
    (∀ (cur : Option Field) (a b : Field),
        isSpeechActive cur a = true → isSpeechActive cur b = true → a = b) ∧
    (∀ a : Field, toggleSpeechField none a = some a) ∧
    (∀ a : Field, toggleSpeechField (some a) a = none) ∧
    (∀ a b : Field, a ≠ b →
        toggleSpeechField (some b) a = some a ∧
        isSpeechActive (toggleSpeechField (some b) a) b = false) := by
  refine ⟨?_, ?_, ?_, ?_⟩
  · intro cur a b ha hb
    rw [isSpeechActive, beq_iff_eq] at ha hb
    rw [ha] at hb
    exact Option.some_inj.mp hb
  · intro a
    simp [toggleSpeechField]
  · intro a
    simp [toggleSpeechField]
  · intro a b hab
    have hba : some b ≠ some a := fun hc =>
      hab (Option.some_inj.mp hc).symm
    constructor
    · simp [toggleSpeechField, hba]
    · simp [toggleSpeechField, hba, isSpeechActive, hab]

/-- Witness for C4 at concrete fields. -/
theorem speech_target_exclusive_witness :
    toggleSpeechField none Field.fullName = some Field.fullName ∧
    toggleSpeechField (some Field.fullName) Field.fullName = none ∧
    toggleSpeechField (some Field.city) Field.fullName = some Field.fullName ∧
    isSpeechActive (toggleSpeechField (some Field.city) Field.fullName)
      Field.city = false := by
  have h := speech_target_exclusive
  exact ⟨h.2.1 Field.fullName, h.2.2.1 Field.fullName,
    (h.2.2.2 Field.fullName Field.city (by decide)).1,
    (h.2.2.2 Field.fullName Field.city (by decide)).2⟩

/-- C5: for every field outside the exception set (the field whose typed
setter uppercases, and the fields whose dictation path strips non-digits),
setting a value through the typed-input path and reading it back yields
the identical string. -/
theorem typed_roundtrip (f : Field) (v : String) (fd : FormData)
    (h1 : f ∉ upperTypedFields) (h2 : f ∉ dictationStripFields) :
    getField (typedInput fd f v) f = v := by
  have ht : typedTransform f v = v := by
    cases f <;> first | rfl | exact absurd (by decide) h1
  rw [typedInput, handleInputChange, ht, getField_setField]

/-- Witness for C5 at the full-name field. -/
theorem typed_roundtrip_witness :
    getField (typedInput emptyForm Field.fullName "Asha Rao")
      Field.fullName = "Asha Rao" :=
  typed_roundtrip Field.fullName "Asha Rao" emptyForm (by decide) (by decide)

/-- Counterexample to C6: typing a lowercase PAN value stores its
uppercased form, so manual typing is not stored without uppercasing for
every field. -/
theorem typed_pan_uppercases_cex :
    getField (typedInput emptyForm Field.panNumber "abcde1234f")
      Field.panNumber = "ABCDE1234F" ∧
    getField (typedInput emptyForm Field.panNumber "abcde1234f")
      Field.panNumber ≠ "abcde1234f" := by
  constructor
  · rfl
  · decide

/-- C6 amended: digit-stripping happens only on the dictation path, and a
manually typed value is stored verbatim for every field except the PAN
number, whose typed onChange handler also uppercases. -/
theorem typed_verbatim_except_pan (f : Field) (v : String) (fd : FormData)
    (h : f ≠ Field.panNumber) :
    getField (typedInput fd f v) f = v := by
  have ht : typedTransform f v = v := by
    cases f <;> first | rfl | exact absurd rfl h
  rw [typedInput, handleInputChange, ht, getField_setField]

/-- Witness for the amended C6 at a dictation-strip field: typing keeps
non-digit characters. -/
theorem typed_verbatim_except_pan_witness :
    getField (typedInput emptyForm Field.aadharNumber "ab 12")
      Field.aadharNumber = "ab 12" :=
  typed_verbatim_except_pan Field.aadharNumber "ab 12" emptyForm (by decide)

lemma getSlot_setSlot (fu : FileUploads) (slot : FileSlot)
    (v : Option FileData) : getSlot (setSlot fu slot v) slot = v := by
  cases slot <;> rfl

/-- C7: the remove affordance clears only the drop zone's own hidden input
value, invokes no selection callback, and leaves the parent's held-file
state (the slot holding currentFile) unchanged. -/
theorem remove_file_local_only (s : DropZoneState) (fu : FileUploads)
    (slot : FileSlot) :
    (handleRemoveFile s).snd = [] ∧
    applySelections fu slot (handleRemoveFile s).snd = fu ∧
    getSlot (applySelections fu slot (handleRemoveFile s).snd) slot
      = getSlot fu slot ∧
    (handleRemoveFile s).fst.inputValue = "" ∧
    (handleRemoveFile s).fst.isDragOver = s.isDragOver :=
  ⟨rfl, rfl, rfl, rfl, rfl⟩

/-- C8: a drop carrying at least one file forwards exactly the first
dropped file through the selection callback, the parent then stores
exactly that file in the slot, and the extra dropped files are discarded;
in particular a two-file drop stores exactly one file, the first. -/
theorem drop_takes_first (s : DropZoneState) (f : FileData)
    (rest : List FileData) (fu : FileUploads) (slot : FileSlot) :
    (handleDrop s (f :: rest)).snd = [f] ∧
    applySelections fu slot (handleDrop s (f :: rest)).snd
      = setSlot fu slot (some f) ∧
    getSlot (applySelections fu slot (handleDrop s (f :: rest)).snd) slot
      = some f ∧
    (handleDrop s (f :: rest)).fst.isDragOver = false := by
  refine ⟨rfl, rfl, ?_, rfl⟩
  have h : applySelections fu slot (handleDrop s (f :: rest)).snd
      = setSlot fu slot (some f) := rfl
  rw [h, getSlot_setSlot]

/-- C9: formatFileSize renders 0 bytes as "0 Bytes" and 1536 bytes as
"1.5 KB", and selects the binary-prefix unit from the floor of the
base-1024 logarithm over the whole Bytes/KB/MB/GB range. -/
theorem formatFileSize_spec :
    formatFileSize 0 = "0 Bytes" ∧
    formatFileSize 1536 = "1.5 KB" ∧
    (∀ b : Nat, 1 ≤ b → b < 1024 → sizeUnit b = "Bytes") ∧
    (∀ b : Nat, 1024 ≤ b → b < 1024 ^ 2 → sizeUnit b = "KB") ∧
    (∀ b : Nat, 1024 ^ 2 ≤ b → b < 1024 ^ 3 → sizeUnit b = "MB") ∧
    (∀ b : Nat, 1024 ^ 3 ≤ b → b < 1024 ^ 4 → sizeUnit b = "GB") := by
  have hlog : Nat.log 1024 1536 = 1 :=
    Nat.log_eq_of_pow_le_of_lt_pow (by norm_num) (by norm_num)
  refine ⟨rfl, ?_, ?_, ?_, ?_, ?_⟩
  · rw [formatFileSize, if_neg (by norm_num), sizeUnit, hlog]
    rfl
  · intro b hb1 hb2
    have hl : Nat.log 1024 b = 0 :=
      Nat.log_eq_of_pow_le_of_lt_pow (by simpa using hb1) (by simpa using hb2)
    rw [sizeUnit, hl]
    rfl
  · intro b hb1 hb2
    have hl : Nat.log 1024 b = 1 :=
      Nat.log_eq_of_pow_le_of_lt_pow (by simpa using hb1) (by simpa using hb2)
    rw [sizeUnit, hl]
    rfl
  · intro b hb1 hb2
    have hl : Nat.log 1024 b = 2 :=
      Nat.log_eq_of_pow_le_of_lt_pow (by simpa using hb1) (by simpa using hb2)
    rw [sizeUnit, hl]
    rfl
  · intro b hb1 hb2
    have hl : Nat.log 1024 b = 3 :=
      Nat.log_eq_of_pow_le_of_lt_pow (by simpa using hb1) (by simpa using hb2)
    rw [sizeUnit, hl]
    rfl

/-- Witness for C9 at one byte count per unit range. -/
theorem formatFileSize_spec_witness :
    sizeUnit 512 = "Bytes" ∧ sizeUnit 1536 = "KB" ∧
    sizeUnit 2097152 = "MB" ∧ sizeUnit 1073741824 = "GB" := by
  have h := formatFileSize_spec
  exact ⟨h.2.2.1 512 (by decide) (by decide),
    h.2.2.2.1 1536 (by decide) (by decide),
    h.2.2.2.2.1 2097152 (by decide) (by decide),
    h.2.2.2.2.2 1073741824 (by decide) (by decide)⟩

end CreditVoiceHub
